import Mathlib

/-!
Shallow embedding of `scripts/python/system_info.py`: the collector
`get_system_info`, the renderers `format_table` / `format_text`, and the
output dispatch in `main` (lines 259-298 of the source).

Python floats that the script manipulates are decimal-valued throughout
(`round(x, 2)` results, `psutil` percent fields, `f"{x:.2f}"` renderings),
so they are modelled by `Dec`, a mantissa/scale pair denoting `m / 10^e`,
and exact rationals stand in for the underlying real values.
-/

namespace SysInfo

/-- A decimal number `m / 10^e`: the model of the Python floats handled by
the script (all of them carry finitely many decimal digits). -/
structure Dec where
  m : Int
  e : Nat
deriving DecidableEq

/-- Rational value denoted by a `Dec`. -/
def Dec.val (d : Dec) : ℚ := (d.m : ℚ) / (10 : ℚ) ^ d.e

/-- Round-half-even of the fraction `n / d` (for `d > 0`) to an integer:
the tie-breaking rule of Python's built-in `round`, computed on integers
(`f` is the floor of the fraction, `r` its remainder). -/
def rheFrac (n d : ℤ) : ℤ :=
  let f := Int.fdiv n d
  let r := Int.fmod n d
  if 2 * r < d then f
  else if d < 2 * r then f + 1
  else if 2 ∣ f then f else f + 1

/-- `round(bytes / (1024 ** 3), 2)` of the source: the byte count divided
by `1024^3` and rounded half-even to two decimal places. -/
def round2gb (bytes : Nat) : Dec := ⟨rheFrac ((bytes : ℤ) * 100) ((1024 : ℤ) ^ 3), 2⟩

/-- Drop trailing zero decimal digits, keeping at least one decimal digit
(Python float `repr` shows `16.0`, `15.5`, `12.34`). -/
def stripDec : Int → Nat → Int × Nat
  | m, 0 => (m, 0)
  | m, 1 => (m, 1)
  | m, e+2 => if m % 10 = 0 then stripDec (m / 10) (e+1) else (m, e+2)

/-- Normal form used for printing: scale `e ≥ 1` with no redundant
trailing zeros. -/
def normDec (d : Dec) : Int × Nat :=
  let p := stripDec d.m d.e
  if p.2 = 0 then (p.1 * 10, 1) else p

/-- Decimal digits of `n`, most significant first, left-padded with zeros
to `len` digits. -/
def natDigits (n : Nat) (len : Nat) : List Char :=
  let ds := Nat.toDigits 10 n
  List.replicate (len - ds.length) '0' ++ ds

/-- Digit list `ds` (scale `e`) printed with the decimal point inserted
`e` digits from the right, with an optional minus sign. -/
def pointed (neg : Bool) (ds : List Char) (e : Nat) : String :=
  String.mk ((if neg then ['-'] else []) ++
    ds.take (ds.length - e) ++ '.' :: ds.drop (ds.length - e))

/-- Python `repr`/`str` of the float denoted by a `Dec` (shortest decimal
form, at least one digit on each side of the point). -/
def decRepr (d : Dec) : String :=
  let p := normDec d
  pointed (p.1 < 0) (natDigits p.1.natAbs (p.2 + 1)) p.2

/-- Python `f"{x:.2f}"` on the float denoted by a `Dec`: fixed two decimal
places, rounded half-even. -/
def format2f (d : Dec) : String :=
  let n := rheFrac (d.m * 100) ((10 : ℤ) ^ d.e)
  pointed (n < 0) (natDigits n.natAbs 3) 2

/-- Split a character list on a separator character. -/
def splitOnChar (sep : Char) : List Char → List (List Char)
  | [] => [[]]
  | c :: cs =>
    let r := splitOnChar sep cs
    if c = sep then [] :: r
    else
      match r with
      | [] => [[c]]
      | w :: ws => (c :: w) :: ws

/-- First letter of a word to upper case, the rest to lower case. -/
def capWord : List Char → List Char
  | [] => []
  | c :: cs => c.toUpper :: cs.map Char.toLower

/-- Python `key.replace('_', ' ').title()` as the renderers apply it to
the dict keys (which contain no spaces): underscores become separators
and each word is capitalized. -/
def pyTitle (s : String) : String :=
  String.intercalate " " ((splitOnChar '_' s.data).map (fun w => String.mk (capWord w)))

/-- JSON-able values: the model of the Python dict the collector builds
(`None` becomes `nul`, ints stay ints, floats are `dec`). -/
inductive Json where
  | str (s : String)
  | int (n : Int)
  | dec (d : Dec)
  | nul
  | arr (xs : List Json)
  | obj (kvs : List (String × Json))

/-- `n` spaces. -/
def sp (n : Nat) : String := String.mk (List.replicate n ' ')

/-- JSON text of a scalar (`json.dumps` of a leaf value). -/
def renderLeaf : Json → String
  | .str s => "\"" ++ s ++ "\""
  | .int n => toString n
  | .dec d => decRepr d
  | .nul => "null"
  | .arr _ => ""
  | .obj _ => ""

mutual

/-- `json.dumps(v, indent=2)` at nesting depth `d` (the source serializes
with `indent=2`, which pretty-prints with two extra spaces per level and
`", "`-free separators). -/
def renderJson (d : Nat) : Json → String
  | .str s => "\"" ++ s ++ "\""
  | .int n => toString n
  | .dec x => decRepr x
  | .nul => "null"
  | .arr [] => "[]"
  | .arr (x :: xs) =>
    "[\n" ++ String.intercalate ",\n" (renderArrItems (d + 2) (x :: xs))
      ++ "\n" ++ sp d ++ "]"
  | .obj [] => "\x7b\x7d"
  | .obj (kv :: kvs) =>
    "\x7b\n" ++ String.intercalate ",\n" (renderObjItems (d + 2) (kv :: kvs))
      ++ "\n" ++ sp d ++ "\x7d"

/-- Rendered array elements, each on its own indented line. -/
def renderArrItems (d : Nat) : List Json → List String
  | [] => []
  | x :: xs => (sp d ++ renderJson d x) :: renderArrItems d xs

/-- Rendered object entries, each on its own indented line. -/
def renderObjItems (d : Nat) : List (String × Json) → List String
  | [] => []
  | kv :: kvs =>
    (sp d ++ "\"" ++ kv.1 ++ "\": " ++ renderJson d kv.2) :: renderObjItems d kvs

end

/-- Top-level keys of a JSON object, in order. -/
def topKeys : Json → List String
  | .obj kvs => kvs.map Prod.fst
  | _ => []

/-! ## The operating environment queried by the collector

`Env` packages the results of the `platform` / `psutil` queries that
`get_system_info` performs, so the collector becomes a pure function of it. -/

/-- One entry of `psutil.disk_partitions()`. -/
structure Partition where
  device : String
  mountpoint : String
  fstype : String
deriving DecidableEq

/-- Result of `psutil.disk_usage(mountpoint)` (byte counts and a percent). -/
structure Usage where
  total : Nat
  used : Nat
  free : Nat
  percent : Dec
deriving DecidableEq

/-- How a per-partition usage query can fail: `PermissionError` (caught by
the source) or any other exception (propagates). -/
inductive QueryError where
  | permission
  | other (msg : String)
deriving DecidableEq

/-- One address binding of `psutil.net_if_addrs()`; `family = 2` is
`AF_INET` (IPv4) on the platforms the script targets. -/
structure Addr where
  family : Nat
  address : String
  netmask : String
deriving DecidableEq

/-- `psutil.cpu_freq()` result when the platform exposes one (the floats
it reports are decimal-valued). -/
structure Freq where
  max : Dec
  current : Dec
deriving DecidableEq

/-- The queried host facts: `platform.*` strings, `psutil` CPU, memory,
disk and network query results. -/
structure Env where
  timestamp : String
  hostname : String
  system : String
  release : String
  version : String
  machine : String
  processor : String
  python_version : String
  cpu_count_physical : Option Nat
  cpu_count_logical : Option Nat
  cpu_freq : Option Freq
  cpu_percent : Dec
  mem_total : Nat
  mem_available : Nat
  mem_used : Nat
  mem_percent : Dec
  disk_partitions : List Partition
  disk_usage : String → Except QueryError Usage
  net_if_addrs : List (String × List Addr)

/-! ## The snapshot (the `info` dict of `get_system_info`) -/

/-- The `info['system']` sub-dict. -/
structure SysBlock where
  hostname : String
  platform : String
  platform_release : String
  platform_version : String
  architecture : String
  processor : String
  python_version : String
deriving DecidableEq

/-- The `info['cpu']` sub-dict; frequencies are the strings the source
builds (`f"{...:.2f} MHz"` or `"N/A"`). -/
structure CpuBlock where
  physical_cores : Option Nat
  total_cores : Option Nat
  max_frequency : String
  current_frequency : String
  cpu_usage_percent : Dec
deriving DecidableEq

/-- The `info['memory']` sub-dict. -/
structure MemBlock where
  total_gb : Dec
  available_gb : Dec
  used_gb : Dec
  percent_used : Dec
deriving DecidableEq

/-- One element of the `info['disk']` list. -/
structure DiskRec where
  device : String
  mountpoint : String
  fstype : String
  total_gb : Dec
  used_gb : Dec
  free_gb : Dec
  percent_used : Dec
deriving DecidableEq

/-- One element of the `info['network']` list. -/
structure NetRec where
  interface : String
  address : String
  netmask : String
deriving DecidableEq

/-- The full snapshot built by `get_system_info` (the `info` dict). -/
structure Snapshot where
  timestamp : String
  system : SysBlock
  cpu : CpuBlock
  memory : MemBlock
  disk : List DiskRec
  network : List NetRec
deriving DecidableEq

/-! ## Collector (`get_system_info`, source lines 53-124) -/

/-- The disk record appended for a partition whose usage query succeeded
(source lines 102-110). -/
def mkDiskRec (p : Partition) (u : Usage) : DiskRec :=
  { device := p.device
  , mountpoint := p.mountpoint
  , fstype := p.fstype
  , total_gb := round2gb u.total
  , used_gb := round2gb u.used
  , free_gb := round2gb u.free
  , percent_used := u.percent }

/-- The `for partition in psutil.disk_partitions()` loop (lines 99-112):
`PermissionError` is caught and skips the partition (`continue`); any
other exception escapes the loop. -/
def collectDisks (usage : String → Except QueryError Usage) :
    List Partition → Except String (List DiskRec)
  | [] => .ok []
  | p :: rest =>
    match usage p.mountpoint with
    | .ok u =>
      match collectDisks usage rest with
      | .ok rs => .ok (mkDiskRec p u :: rs)
      | .error e => .error e
    | .error .permission => collectDisks usage rest
    | .error (.other msg) => .error msg

/-- The inner `for addr in addresses` loop (lines 116-122). -/
def addrLoop (itf : String) : List Addr → List NetRec
  | [] => []
  | a :: rest =>
    if a.family = 2 then
      ⟨itf, a.address, a.netmask⟩ :: addrLoop itf rest
    else addrLoop itf rest

/-- The `for interface, addresses in psutil.net_if_addrs().items()` loop
(lines 115-122), appending to one shared list. -/
def collectNetwork : List (String × List Addr) → List NetRec
  | [] => []
  | (itf, addrs) :: rest => addrLoop itf addrs ++ collectNetwork rest

/-- `f"{freq:.2f} MHz" if psutil.cpu_freq() else "N/A"` (lines 84-85),
for the `max`/`current` field selected by `pick`. -/
def freqString (pick : Freq → Dec) : Option Freq → String
  | some fr => format2f (pick fr) ++ " MHz"
  | none => "N/A"

/-- `get_system_info()` (lines 53-124): pure function of the queried
environment; fails exactly when a disk-usage query raises something other
than `PermissionError` (any such exception propagates to `main`). -/
def get_system_info (env : Env) : Except String Snapshot :=
  match collectDisks env.disk_usage env.disk_partitions with
  | .error e => .error e
  | .ok disks =>
    .ok { timestamp := env.timestamp
         , system :=
           { hostname := env.hostname
           , platform := env.system
           , platform_release := env.release
           , platform_version := env.version
           , architecture := env.machine
           , processor := env.processor
           , python_version := env.python_version }
         , cpu :=
           { physical_cores := env.cpu_count_physical
           , total_cores := env.cpu_count_logical
           , max_frequency := freqString Freq.max env.cpu_freq
           , current_frequency := freqString Freq.current env.cpu_freq
           , cpu_usage_percent := env.cpu_percent }
         , memory :=
           { total_gb := round2gb env.mem_total
           , available_gb := round2gb env.mem_available
           , used_gb := round2gb env.mem_used
           , percent_used := env.mem_percent }
         , disk := disks
         , network := collectNetwork env.net_if_addrs }

/-! ## The snapshot as the JSON-able dict handed to `json.dump`/`yaml.dump` -/

/-- `None` serializes as `null`, an int as a number. -/
def optNatJson : Option Nat → Json
  | none => .nul
  | some n => .int n

/-- `info['system']` as a JSON object (dict insertion order). -/
def sysJson (s : SysBlock) : Json :=
  .obj [ ("hostname", .str s.hostname)
       , ("platform", .str s.platform)
       , ("platform_release", .str s.platform_release)
       , ("platform_version", .str s.platform_version)
       , ("architecture", .str s.architecture)
       , ("processor", .str s.processor)
       , ("python_version", .str s.python_version) ]

/-- `info['cpu']` as a JSON object. -/
def cpuJson (c : CpuBlock) : Json :=
  .obj [ ("physical_cores", optNatJson c.physical_cores)
       , ("total_cores", optNatJson c.total_cores)
       , ("max_frequency", .str c.max_frequency)
       , ("current_frequency", .str c.current_frequency)
       , ("cpu_usage_percent", .dec c.cpu_usage_percent) ]

/-- `info['memory']` as a JSON object. -/
def memJson (m : MemBlock) : Json :=
  .obj [ ("total_gb", .dec m.total_gb)
       , ("available_gb", .dec m.available_gb)
       , ("used_gb", .dec m.used_gb)
       , ("percent_used", .dec m.percent_used) ]

/-- One `info['disk']` element as a JSON object. -/
def diskJson (d : DiskRec) : Json :=
  .obj [ ("device", .str d.device)
       , ("mountpoint", .str d.mountpoint)
       , ("fstype", .str d.fstype)
       , ("total_gb", .dec d.total_gb)
       , ("used_gb", .dec d.used_gb)
       , ("free_gb", .dec d.free_gb)
       , ("percent_used", .dec d.percent_used) ]

/-- One `info['network']` element as a JSON object. -/
def netJson (n : NetRec) : Json :=
  .obj [ ("interface", .str n.interface)
       , ("address", .str n.address)
       , ("netmask", .str n.netmask) ]

/-- The whole `info` dict as a JSON object; the key order is the dict
insertion order fixed at lines 60-67 of the source. -/
def snapshotJson (s : Snapshot) : Json :=
  .obj [ ("timestamp", .str s.timestamp)
       , ("system", sysJson s.system)
       , ("cpu", cpuJson s.cpu)
       , ("memory", memJson s.memory)
       , ("disk", .arr (s.disk.map diskJson))
       , ("network", .arr (s.network.map netJson)) ]

/-! ## Renderers (`format_text` lines 198-227, `format_table` lines 127-195)

Each renderer is modelled as the ordered list of strings the source hands
to `print` (plain-text path) or to `console.print` / `Table.add_row`
(rich path, where the visual layout is the external library's business). -/

/-- `str(value)` for the optional core counts (`str(None) == "None"`). -/
def optNatStr : Option Nat → String
  | none => "None"
  | some n => toString n

/-- `info['system'].items()` with values already `str`-ed. -/
def sysItems (s : SysBlock) : List (String × String) :=
  [ ("hostname", s.hostname)
  , ("platform", s.platform)
  , ("platform_release", s.platform_release)
  , ("platform_version", s.platform_version)
  , ("architecture", s.architecture)
  , ("processor", s.processor)
  , ("python_version", s.python_version) ]

/-- `info['cpu'].items()` with values already `str`-ed. -/
def cpuItems (c : CpuBlock) : List (String × String) :=
  [ ("physical_cores", optNatStr c.physical_cores)
  , ("total_cores", optNatStr c.total_cores)
  , ("max_frequency", c.max_frequency)
  , ("current_frequency", c.current_frequency)
  , ("cpu_usage_percent", decRepr c.cpu_usage_percent) ]

/-- `info['memory'].items()` with values already `str`-ed. -/
def memItems (m : MemBlock) : List (String × String) :=
  [ ("total_gb", decRepr m.total_gb)
  , ("available_gb", decRepr m.available_gb)
  , ("used_gb", decRepr m.used_gb)
  , ("percent_used", decRepr m.percent_used) ]

/-- The five `print` calls of the per-disk block of `format_text`
(lines 222-227). -/
def diskTextLines (d : DiskRec) : List String :=
  [ "\nDevice: " ++ d.device
  , "  Mount: " ++ d.mountpoint
  , "  Total: " ++ decRepr d.total_gb ++ " GB"
  , "  Used: " ++ decRepr d.used_gb ++ " GB (" ++ decRepr d.percent_used ++ "%)"
  , "  Free: " ++ decRepr d.free_gb ++ " GB" ]

/-- `format_text(info)` (lines 198-227): the sequence of `print` payloads,
covering the system, CPU, memory and disk sections. -/
def format_text (info : Snapshot) : List String :=
  [ "\n=== SYSTEM INFORMATION ==="
  , "Hostname: " ++ info.system.hostname
  , "Timestamp: " ++ info.timestamp ++ "\n"
  , "--- System ---" ]
  ++ (sysItems info.system).map (fun kv => pyTitle kv.1 ++ ": " ++ kv.2)
  ++ ["\n--- CPU ---"]
  ++ (cpuItems info.cpu).map (fun kv => pyTitle kv.1 ++ ": " ++ kv.2)
  ++ ["\n--- Memory ---"]
  ++ (memItems info.memory).map (fun kv => pyTitle kv.1 ++ ": " ++ kv.2)
  ++ ["\n--- Disks ---"]
  ++ info.disk.flatMap diskTextLines

/-- The cells of one `disk_table.add_row` call (lines 186-193). -/
def diskRowCells (d : DiskRec) : List String :=
  [ d.device
  , d.mountpoint
  , decRepr d.total_gb
  , decRepr d.used_gb
  , decRepr d.free_gb
  , decRepr d.percent_used ++ "%" ]

/-- The rich path of `format_table` (lines 139-195): the ordered strings
handed to the rich console and tables (titles, then row cells in order). -/
def formatTableRich (info : Snapshot) : List String :=
  [ "\n[bold yellow]=== SYSTEM INFORMATION ===[/bold yellow]"
  , "Hostname: " ++ info.system.hostname
  , "Timestamp: " ++ info.timestamp ++ "\n"
  , "System Details" ]
  ++ ((sysItems info.system).filter (fun kv => kv.1 ≠ "hostname")).flatMap
      (fun kv => [pyTitle kv.1, kv.2])
  ++ ["\nCPU Information"]
  ++ (cpuItems info.cpu).flatMap (fun kv => [pyTitle kv.1, kv.2])
  ++ ["\nMemory Information"]
  ++ (memItems info.memory).flatMap (fun kv => [pyTitle kv.1, kv.2])
  ++ ["\nDisk Information"]
  ++ info.disk.flatMap diskRowCells

/-- The message printed when rich is missing (line 135). -/
def richUnavailableMsg : String :=
  "Rich library not available. Install with: pip install rich"

/-- `format_table(info)` (lines 127-195): without rich it prints the
install hint and falls back to `format_text` (lines 134-137). -/
def format_table (richAvailable : Bool) (info : Snapshot) : List String :=
  if richAvailable then formatTableRich info
  else richUnavailableMsg :: format_text info

/-! ## `main` output dispatch (source lines 230-298) -/

/-- The `--format` choices (line 235); default is `table`. -/
inductive Format where
  | json
  | yaml
  | table
  | text
deriving DecidableEq

/-- `pathlib.PurePath.suffix`: the extension (with the dot) of the final
path component, empty when the last dot is leading, trailing or absent. -/
def pathSuffix (p : String) : String :=
  let name := (splitOnChar '/' p.data).getLastD []
  match ((name.enum.filter (fun q => q.2 = '.')).map Prod.fst).getLast? with
  | none => ""
  | some i => if 0 < i ∧ i < name.length - 1 then String.mk (name.drop i) else ""

/-- What ends up in the output file: JSON text written by
`json.dump(info, f, indent=2)` / `f.write(json.dumps(info, indent=2))`
(identical bytes), or the dict handed to the external `yaml.dump`
(with `default_flow_style=False`). -/
inductive FileContent where
  | jsonText (s : String)
  | yamlOf (j : Json)

/-- Whether the file received the in-repo JSON serialization. -/
def FileContent.isJsonText : FileContent → Bool
  | .jsonText _ => true
  | .yamlOf _ => false

/-- One stdout emission: a printed string, or the dict handed to the
external `yaml.dump` before printing. -/
inductive OutEvent where
  | line (s : String)
  | yamlOut (j : Json)

/-- Observable outcome of `main` after collection: process exit status,
the file written (if any), stdout emissions, and the `logger.error`
message (if any). -/
structure RunResult where
  exitCode : Nat
  fileWritten : Option FileContent
  stdoutEvents : List OutEvent
  loggedError : Option String

/-- Decidable equality of `Except` results, so that concrete collector
runs can be settled by `decide`. -/
instance {e a : Type} [DecidableEq e] [DecidableEq a] : DecidableEq (Except e a) := fun x y =>
  match x, y with
  | .ok v, .ok w =>
    if h : v = w then .isTrue (congrArg Except.ok h)
    else .isFalse (fun hc => h (Except.ok.inj hc))
  | .error v, .error w =>
    if h : v = w then .isTrue (congrArg Except.error h)
    else .isFalse (fun hc => h (Except.error.inj hc))
  | .ok _, .error _ => .isFalse (fun hc => Except.noConfusion hc)
  | .error _, .ok _ => .isFalse (fun hc => Except.noConfusion hc)

/-- The error logged when YAML is requested but absent (lines 272, 288). -/
def yamlErrMsg : String :=
  "YAML support not available. Install with: pip install pyyaml"

/-- The `args.output` branch chain of `main` (lines 262-281) and the
stdout branch chain (lines 284-294), applied to a collected snapshot.
`sys.exit(1)` on the YAML-unavailable paths happens before any file is
opened, so no file is created there; the first and the final `else`
branch write the same `indent=2` JSON bytes (`json.dump` to the handle
vs `f.write(json.dumps(...))`). -/
def dispatchOutput (fmt : Format) (output : Option String)
    (yamlAvailable richAvailable : Bool) (info : Snapshot) : RunResult :=
  match output with
  | some path =>
    if fmt = Format.json ∨ pathSuffix path = ".json" then
      ⟨0, some (.jsonText (renderJson 0 (snapshotJson info))), [], none⟩
    else if fmt = Format.yaml ∨ pathSuffix path = ".yaml" ∨
        pathSuffix path = ".yml" then
      if yamlAvailable then
        ⟨0, some (.yamlOf (snapshotJson info)), [], none⟩
      else ⟨1, none, [], some yamlErrMsg⟩
    else
      ⟨0, some (.jsonText (renderJson 0 (snapshotJson info))), [], none⟩
  | none =>
    match fmt with
    | .json => ⟨0, none, [.line (renderJson 0 (snapshotJson info))], none⟩
    | .yaml =>
      if yamlAvailable then ⟨0, none, [.yamlOut (snapshotJson info)], none⟩
      else ⟨1, none, [], some yamlErrMsg⟩
    | .table => ⟨0, none, (format_table richAvailable info).map .line, none⟩
    | .text => ⟨0, none, (format_text info).map .line, none⟩

/-- `main` from the collection call onward (lines 259-298): collect, then
dispatch; the top-level `except` logs the exception and exits 1. -/
def runMain (fmt : Format) (output : Option String)
    (yamlAvailable richAvailable : Bool) (env : Env) : RunResult :=
  match get_system_info env with
  | .error e =>
    ⟨1, none, [], some ("Error collecting system information: " ++ e)⟩
  | .ok info => dispatchOutput fmt output yamlAvailable richAvailable info

/-- Whether a usage-query result is a non-`PermissionError` exception
(the kind the disk loop does not catch). -/
def isOtherError : Except QueryError Usage → Bool
  | .error (.other _) => true
  | _ => false

/-- No partition's usage query raises anything but `PermissionError`:
under this condition collection succeeds. -/
def disksBenign (env : Env) : Bool :=
  env.disk_partitions.all (fun p => !isOtherError (env.disk_usage p.mountpoint))

/-- The invocations on which the code reaches the YAML encoder: with an
output path, the JSON branch (line 265) must fail and the YAML branch
condition (line 270) hold; without one, `--format yaml` (line 286). -/
def yamlSelected (fmt : Format) (output : Option String) : Bool :=
  match output with
  | some path =>
    if fmt = Format.json ∨ pathSuffix path = ".json" then false
    else if fmt = Format.yaml ∨ pathSuffix path = ".yaml" ∨
        pathSuffix path = ".yml" then true
    else false
  | none => fmt = Format.yaml

/-! ## Concrete fixtures used to instantiate theorems -/

/-- A loopback IPv4 binding. -/
def addrLo : Addr := ⟨2, "127.0.0.1", "255.0.0.0"⟩

/-- An IPv6 binding (family `AF_INET6 = 10`), to be filtered out. -/
def addrV6 : Addr := ⟨10, "fe80::1", "ffff:ffff:ffff:ffff::"⟩

/-- An ethernet IPv4 binding. -/
def addrEth : Addr := ⟨2, "192.168.0.2", "255.255.255.0"⟩

/-- Root partition fixture. -/
def partRoot : Partition := ⟨"/dev/sda1", "/", "ext4"⟩

/-- Removable-media partition fixture (usage query denied). -/
def partUsb : Partition := ⟨"/dev/sdb1", "/mnt/usb", "vfat"⟩

/-- Data partition fixture. -/
def partData : Partition := ⟨"/dev/sdc1", "/data", "ext4"⟩

/-- Usage of the root partition: 100 GiB, 60 used, 40 free. -/
def usageRoot : Usage := ⟨100 * 1024 ^ 3, 60 * 1024 ^ 3, 40 * 1024 ^ 3, ⟨600, 1⟩⟩

/-- Usage of the data partition: 500 GiB, 125 used, 375 free. -/
def usageData : Usage := ⟨500 * 1024 ^ 3, 125 * 1024 ^ 3, 375 * 1024 ^ 3, ⟨250, 1⟩⟩

/-- Usage query fixture: the USB mountpoint raises `PermissionError`, the
other two succeed. -/
def usageFix : String → Except QueryError Usage := fun mp =>
  if mp = "/" then .ok usageRoot
  else if mp = "/data" then .ok usageData
  else .error .permission

/-- A concrete queried environment: no CPU-frequency support, three
partitions of which the middle one is permission-denied, one IPv6 and two
IPv4 bindings. -/
def env0 : Env :=
  { timestamp := "2026-01-01T00:00:00"
  , hostname := "host0"
  , system := "Linux"
  , release := "6.1.0"
  , version := "#1 SMP"
  , machine := "x86_64"
  , processor := "x86_64"
  , python_version := "3.11.0"
  , cpu_count_physical := some 4
  , cpu_count_logical := some 8
  , cpu_freq := none
  , cpu_percent := ⟨123, 1⟩
  , mem_total := 16 * 1024 ^ 3
  , mem_available := 8 * 1024 ^ 3
  , mem_used := 8 * 1024 ^ 3
  , mem_percent := ⟨500, 1⟩
  , disk_partitions := [partRoot, partUsb, partData]
  , disk_usage := usageFix
  , net_if_addrs := [("lo", [addrLo]), ("eth0", [addrV6, addrEth])] }

/-- The snapshot `get_system_info` collects from `env0`, written out. -/
def snap0 : Snapshot :=
  { timestamp := "2026-01-01T00:00:00"
  , system :=
    { hostname := "host0"
    , platform := "Linux"
    , platform_release := "6.1.0"
    , platform_version := "#1 SMP"
    , architecture := "x86_64"
    , processor := "x86_64"
    , python_version := "3.11.0" }
  , cpu :=
    { physical_cores := some 4
    , total_cores := some 8
    , max_frequency := "N/A"
    , current_frequency := "N/A"
    , cpu_usage_percent := ⟨123, 1⟩ }
  , memory :=
    { total_gb := ⟨1600, 2⟩
    , available_gb := ⟨800, 2⟩
    , used_gb := ⟨800, 2⟩
    , percent_used := ⟨500, 1⟩ }
  , disk :=
    [ ⟨"/dev/sda1", "/", "ext4", ⟨10000, 2⟩, ⟨6000, 2⟩, ⟨4000, 2⟩, ⟨600, 1⟩⟩
    , ⟨"/dev/sdc1", "/data", "ext4", ⟨50000, 2⟩, ⟨12500, 2⟩, ⟨37500, 2⟩, ⟨250, 1⟩⟩ ]
  , network :=
    [ ⟨"lo", "127.0.0.1", "255.0.0.0"⟩
    , ⟨"eth0", "192.168.0.2", "255.255.255.0"⟩ ] }

/-! ## Helper lemmas -/

/-- When no usage query raises a non-permission exception, the disk loop
succeeds and yields exactly the usable partitions' records, in order. -/
theorem collectDisks_benign (usage : String → Except QueryError Usage) :
    ∀ parts : List Partition,
    (∀ p ∈ parts, isOtherError (usage p.mountpoint) = false) →
    collectDisks usage parts =
      .ok (parts.filterMap fun p => (usage p.mountpoint).toOption.map (mkDiskRec p))
  | [], _ => rfl
  | p :: rest, h => by
    have hp := h p (List.mem_cons_self p rest)
    have hrest := collectDisks_benign usage rest
      (fun q hq => h q (List.mem_cons_of_mem p hq))
    cases hu : usage p.mountpoint with
    | ok u =>
      simp [collectDisks, hu, hrest, List.filterMap_cons, Except.toOption]
    | error err =>
      cases err with
      | permission =>
        simp [collectDisks, hu, hrest, List.filterMap_cons, Except.toOption]
      | other msg => simp [isOtherError, hu] at hp

/-- Conversely, whenever the disk loop returns a list at all, that list is
exactly the usable partitions' records, in order. -/
theorem collectDisks_ok (usage : String → Except QueryError Usage) :
    ∀ (parts : List Partition) (l : List DiskRec),
    collectDisks usage parts = .ok l →
    l = parts.filterMap fun p => (usage p.mountpoint).toOption.map (mkDiskRec p)
  | [], l, h => by simpa [collectDisks] using (Except.ok.inj h).symm
  | p :: rest, l, h => by
    cases hu : usage p.mountpoint with
    | ok u =>
      simp only [collectDisks, hu] at h
      cases hrest : collectDisks usage rest with
      | ok rs =>
        rw [hrest] at h
        have h' : mkDiskRec p u :: rs = l := Except.ok.inj h
        have ih := collectDisks_ok usage rest rs hrest
        rw [← h', ih]
        simp [List.filterMap_cons, hu, Except.toOption]
      | error e => rw [hrest] at h; exact Except.noConfusion h
    | error err =>
      cases err with
      | permission =>
        simp only [collectDisks, hu] at h
        have ih := collectDisks_ok usage rest l h
        rw [ih]
        simp [List.filterMap_cons, hu, Except.toOption]
      | other msg => simp only [collectDisks, hu] at h; exact Except.noConfusion h

/-- Unpacking a successful collection: the snapshot's fields in terms of
the environment, and the disk list as the disk loop produced it. -/
theorem get_system_info_fields (env : Env) (s : Snapshot)
    (h : get_system_info env = .ok s) :
    collectDisks env.disk_usage env.disk_partitions = .ok s.disk
  ∧ s = { timestamp := env.timestamp
        , system :=
          { hostname := env.hostname
          , platform := env.system
          , platform_release := env.release
          , platform_version := env.version
          , architecture := env.machine
          , processor := env.processor
          , python_version := env.python_version }
        , cpu :=
          { physical_cores := env.cpu_count_physical
          , total_cores := env.cpu_count_logical
          , max_frequency := freqString Freq.max env.cpu_freq
          , current_frequency := freqString Freq.current env.cpu_freq
          , cpu_usage_percent := env.cpu_percent }
        , memory :=
          { total_gb := round2gb env.mem_total
          , available_gb := round2gb env.mem_available
          , used_gb := round2gb env.mem_used
          , percent_used := env.mem_percent }
        , disk := s.disk
        , network := collectNetwork env.net_if_addrs } := by
  unfold get_system_info at h
  cases hd : collectDisks env.disk_usage env.disk_partitions with
  | error e => rw [hd] at h; exact Except.noConfusion h
  | ok l =>
    rw [hd] at h
    have hs := Except.ok.inj h
    constructor
    · rw [← hs]
    · rw [← hs]

/-- The inner address loop filters to IPv4 and keeps enumeration order. -/
theorem addrLoop_eq (itf : String) :
    ∀ addrs : List Addr,
    addrLoop itf addrs =
      (addrs.filter fun a => a.family = 2).map fun a => ⟨itf, a.address, a.netmask⟩
  | [] => rfl
  | a :: rest => by
    by_cases hf : a.family = 2
    · simp [addrLoop, hf, List.filter_cons, addrLoop_eq itf rest]
    · simp [addrLoop, hf, List.filter_cons, addrLoop_eq itf rest]

/-- The network loop is the ordered concatenation of the per-interface
IPv4-filtered bindings. -/
theorem collectNetwork_eq :
    ∀ ifs : List (String × List Addr),
    collectNetwork ifs =
      ifs.flatMap fun pr =>
        (pr.2.filter fun a => a.family = 2).map fun a => ⟨pr.1, a.address, a.netmask⟩
  | [] => rfl
  | (itf, addrs) :: rest => by
    simp [collectNetwork, addrLoop_eq itf addrs, collectNetwork_eq rest]

/-- Correct rounding: the integer `rheFrac n d` is within half a unit of
the exact fraction `n / d` (stated over the integers: twice the distance
of `rheFrac n d * d` from `n` is at most `d`). -/
theorem rheFrac_close (n d : ℤ) (hd : 0 < d) :
    |2 * (d * rheFrac n d - n)| ≤ d := by
  have h0 : 0 ≤ Int.fmod n d := Int.fmod_nonneg' n hd
  have h1 : Int.fmod n d < d := Int.fmod_lt_of_pos n hd
  have hdf : d * Int.fdiv n d = n - Int.fmod n d := by
    rw [Int.fmod_def]; ring
  simp only [rheFrac]
  split_ifs with hc1 hc2 hc3
  · rw [abs_le]; constructor <;> linarith [hdf]
  · rw [abs_le, mul_add, hdf]; constructor <;> linarith
  · rw [abs_le]; constructor <;> linarith [hdf]
  · rw [abs_le, mul_add, hdf]; constructor <;> linarith

/-- The constructed gibibyte value is within half a hundredth of the
exact byte count divided by `1024^3`: it is that quotient correctly
rounded to two decimal places. -/
theorem round2gb_close (b : Nat) :
    |(round2gb b).val - (b : ℚ) / 1024 ^ 3| ≤ 1 / 200 := by
  have h := rheFrac_close ((b : ℤ) * 100) ((1024 : ℤ) ^ 3) (by norm_num)
  have h2 : |(2 : ℚ) * ((1024 : ℚ) ^ 3 * ((rheFrac ((b : ℤ) * 100) ((1024 : ℤ) ^ 3) : ℤ) : ℚ) - (b : ℚ) * 100)| ≤ (1024 : ℚ) ^ 3 := by
    exact_mod_cast h
  rw [abs_le] at h2 ⊢
  have hv : (round2gb b).val =
      ((rheFrac ((b : ℤ) * 100) ((1024 : ℤ) ^ 3) : ℤ) : ℚ) / 100 := by
    simp [round2gb, Dec.val]
    norm_num
  rw [hv]
  norm_num at h2 ⊢
  constructor <;> linarith [h2.1, h2.2]

/-- The constructed gibibyte value lies on the two-decimal grid: one
hundred times it is an integer. -/
theorem round2gb_grid (b : Nat) : ((round2gb b).val * 100).den = 1 := by
  have hv : (round2gb b).val * 100 =
      ((rheFrac ((b : ℤ) * 100) ((1024 : ℤ) ^ 3) : ℤ) : ℚ) := by
    simp [round2gb, Dec.val]
    norm_num
  rw [hv]
  exact Rat.den_intCast _

/-- A successful collection makes `main` proceed to the output dispatch. -/
theorem runMain_ok (fmt : Format) (output : Option String)
    (yamlAvailable richAvailable : Bool) (env : Env) (s : Snapshot)
    (h : get_system_info env = .ok s) :
    runMain fmt output yamlAvailable richAvailable env =
      dispatchOutput fmt output yamlAvailable richAvailable s := by
  unfold runMain
  rw [h]

/-- The fixture environment collects to the fixture snapshot. -/
theorem env0_ok : get_system_info env0 = .ok snap0 := by decide

/-! ## Claim theorems -/

/-- C3: partitions whose usage query raises a permission failure are
silently excluded — the disk loop succeeds and yields exactly the records
of the remaining partitions, in their original enumeration order. -/
theorem disk_permission_skip
    (usage : String → Except QueryError Usage) (parts : List Partition)
    (h : ∀ p ∈ parts, isOtherError (usage p.mountpoint) = false) :
    collectDisks usage parts =
      .ok (parts.filterMap fun p => (usage p.mountpoint).toOption.map (mkDiskRec p)) :=
  collectDisks_benign usage parts h

/-- C3 witness: of three partitions the middle one is permission-denied;
the result is exactly the other two records, in original order. -/
theorem disk_permission_skip_witness :
    collectDisks usageFix [partRoot, partUsb, partData] =
      .ok [mkDiskRec partRoot usageRoot, mkDiskRec partData usageData] :=
  (disk_permission_skip usageFix [partRoot, partUsb, partData] (by decide)).trans
    (by decide)

/-- C7: the snapshot's network sequence holds exactly one record per
IPv4-family (`family = 2`) binding, in enumeration order, and none for
any other address family. -/
theorem network_ipv4_filter (env : Env) (s : Snapshot)
    (h : get_system_info env = .ok s) :
    s.network =
      env.net_if_addrs.flatMap fun pr =>
        (pr.2.filter fun a => a.family = 2).map
          fun a => ⟨pr.1, a.address, a.netmask⟩ := by
  have hs := (get_system_info_fields env s h).2
  rw [hs]
  exact collectNetwork_eq env.net_if_addrs

/-- C7 witness: the fixture with one IPv6 and two IPv4 bindings keeps
exactly the IPv4 ones, in order. -/
theorem network_ipv4_filter_witness :
    snap0.network =
      env0.net_if_addrs.flatMap fun pr =>
        (pr.2.filter fun a => a.family = 2).map
          fun a => ⟨pr.1, a.address, a.netmask⟩ :=
  network_ipv4_filter env0 snap0 env0_ok

/-- C10: neither the plain-text renderer nor the table renderer (on
either of its paths) reads the snapshot's network data: their output is
invariant under any change of the network sequence. -/
theorem renderers_ignore_network (s : Snapshot) (net : List NetRec) (b : Bool) :
    format_text { s with network := net } = format_text s
  ∧ format_table b { s with network := net } = format_table b s := by
  constructor
  · rfl
  · cases b <;> rfl

/-- C6: with the rich capability absent, `format_table` prints the
install hint and then exactly the plain-text rendering of the same
snapshot; `main` completes normally (exit 0, no error logged). -/
theorem table_fallback_text (env : Env) (s : Snapshot) (yamlAvailable : Bool)
    (h : get_system_info env = .ok s) :
    format_table false s = richUnavailableMsg :: format_text s
  ∧ runMain Format.table none yamlAvailable false env =
      ⟨0, none, (richUnavailableMsg :: format_text s).map OutEvent.line, none⟩ := by
  refine ⟨rfl, ?_⟩
  rw [runMain_ok Format.table none yamlAvailable false env s h]
  rfl

/-- C6 witness: the fallback on the fixture snapshot. -/
theorem table_fallback_text_witness :
    runMain Format.table none true false env0 =
      ⟨0, none, (richUnavailableMsg :: format_text snap0).map OutEvent.line, none⟩ :=
  (table_fallback_text env0 snap0 true env0_ok).2

/-- C4: with no frequency data the cpu frequency fields take the `"N/A"`
sentinel (which is neither `"0.00 MHz"` nor any numeric rendering of
zero); with data they are the two-decimal megahertz rendering of the
reported values. -/
theorem cpu_freq_sentinel (env : Env) (s : Snapshot)
    (h : get_system_info env = .ok s) :
    (env.cpu_freq = none →
      s.cpu.max_frequency = "N/A" ∧ s.cpu.current_frequency = "N/A")
  ∧ (∀ fr, env.cpu_freq = some fr →
      s.cpu.max_frequency = format2f fr.max ++ " MHz" ∧
      s.cpu.current_frequency = format2f fr.current ++ " MHz")
  ∧ ("N/A" : String) ≠ "0.00 MHz"
  ∧ format2f ⟨0, 0⟩ ++ " MHz" = "0.00 MHz" := by
  have hs := (get_system_info_fields env s h).2
  refine ⟨?_, ?_, by decide, by decide⟩
  · intro hf; rw [hs]; simp [freqString, hf]
  · intro fr hf; rw [hs]; simp [freqString, hf]

/-- C4 witness: the fixture host reports no frequency data and both
fields resolve to the sentinel. -/
theorem cpu_freq_sentinel_witness :
    env0.cpu_freq = none ∧ snap0.cpu.max_frequency = "N/A" ∧
      snap0.cpu.current_frequency = "N/A" :=
  ⟨rfl, (cpu_freq_sentinel env0 snap0 env0_ok).1 rfl⟩

/-- C5: with format JSON and an output path, the file receives the
`indent=2` JSON serialization of the snapshot; its top-level keys are
exactly timestamp, system, cpu, memory, disk, network, with disk and
network always arrays, string fields as JSON strings and numeric fields
as JSON numbers (or null for an unavailable core count). -/
theorem json_output_shape (env : Env) (s : Snapshot) (path : String)
    (yamlAvailable richAvailable : Bool)
    (h : get_system_info env = .ok s) :
    (runMain Format.json (some path) yamlAvailable richAvailable env).fileWritten
      = some (.jsonText (renderJson 0 (snapshotJson s)))
  ∧ topKeys (snapshotJson s) =
      ["timestamp", "system", "cpu", "memory", "disk", "network"]
  ∧ snapshotJson s =
      .obj [ ("timestamp", .str s.timestamp)
           , ("system", sysJson s.system)
           , ("cpu", cpuJson s.cpu)
           , ("memory", memJson s.memory)
           , ("disk", .arr (s.disk.map diskJson))
           , ("network", .arr (s.network.map netJson)) ] := by
  refine ⟨?_, rfl, rfl⟩
  rw [runMain_ok Format.json (some path) yamlAvailable richAvailable env s h]
  simp [dispatchOutput]

/-- C5 witness: the JSON branch on the fixture. -/
theorem json_output_shape_witness :
    (runMain Format.json (some "report.json") true true env0).fileWritten
      = some (.jsonText (renderJson 0 (snapshotJson snap0))) :=
  (json_output_shape env0 snap0 "report.json" true true env0_ok).1

/-- C2: whenever the code reaches the YAML encoder while the YAML
capability is absent, `main` logs the unsupported-feature error and exits
with status 1, with no file written (not even partially) and nothing on
stdout. -/
theorem yaml_unavailable_fails (env : Env) (s : Snapshot) (fmt : Format)
    (output : Option String) (richAvailable : Bool)
    (h : get_system_info env = .ok s)
    (hsel : yamlSelected fmt output = true) :
    runMain fmt output false richAvailable env =
      ⟨1, none, [], some yamlErrMsg⟩ := by
  rw [runMain_ok fmt output false richAvailable env s h]
  cases output with
  | some path =>
    simp only [yamlSelected] at hsel
    by_cases h1 : fmt = Format.json ∨ pathSuffix path = ".json"
    · rw [if_pos h1] at hsel; exact absurd hsel (by simp)
    · rw [if_neg h1] at hsel
      by_cases h2 : fmt = Format.yaml ∨ pathSuffix path = ".yaml" ∨
          pathSuffix path = ".yml"
      · simp [dispatchOutput, h1, h2]
      · rw [if_neg h2] at hsel; exact absurd hsel (by simp)
  | none =>
    simp only [yamlSelected] at hsel
    have hf : fmt = Format.yaml := of_decide_eq_true hsel
    subst hf
    simp [dispatchOutput]

/-- C2 witness: a `.yaml` output path with the YAML capability absent
errors out with exit status 1 and no file. -/
theorem yaml_unavailable_fails_witness :
    yamlSelected Format.yaml (some "system.yaml") = true ∧
    runMain Format.yaml (some "system.yaml") false true env0 =
      ⟨1, none, [], some yamlErrMsg⟩ :=
  ⟨by decide, yaml_unavailable_fails env0 snap0 Format.yaml (some "system.yaml")
    true env0_ok (by decide)⟩

/-- C9: an output path whose suffix is none of `.json`, `.yaml`, `.yml`
with format table or text falls into the final `else`: the file receives
the `indent=2` JSON serialization and no table or text rendering is
emitted anywhere. -/
theorem other_extension_writes_json (env : Env) (s : Snapshot) (path : String)
    (yamlAvailable richAvailable : Bool) (fmt : Format)
    (h : get_system_info env = .ok s)
    (hfmt : fmt = Format.table ∨ fmt = Format.text)
    (h1 : pathSuffix path ≠ ".json") (h2 : pathSuffix path ≠ ".yaml")
    (h3 : pathSuffix path ≠ ".yml") :
    runMain fmt (some path) yamlAvailable richAvailable env =
      ⟨0, some (.jsonText (renderJson 0 (snapshotJson s))), [], none⟩ := by
  rw [runMain_ok fmt (some path) yamlAvailable richAvailable env s h]
  cases hfmt with
  | inl hf => subst hf; simp [dispatchOutput, h1, h2, h3]
  | inr hf => subst hf; simp [dispatchOutput, h1, h2, h3]

/-- C9 witness: format table with a `.txt` output path writes JSON. -/
theorem other_extension_writes_json_witness :
    runMain Format.table (some "report.txt") true true env0 =
      ⟨0, some (.jsonText (renderJson 0 (snapshotJson snap0))), [], none⟩ :=
  other_extension_writes_json env0 snap0 "report.txt" true true Format.table
    env0_ok (Or.inl rfl) (by decide) (by decide) (by decide)

/-- C1 counterexample: an explicit `--format yaml` conflicting with a
`.json` output extension, with the YAML capability available, still
writes the JSON serialization: the extension, not the explicit flag,
determined the encoding. -/
theorem explicit_format_flag_cex :
    Format.yaml ≠ Format.json
  ∧ pathSuffix "report.json" = ".json"
  ∧ (runMain Format.yaml (some "report.json") true true env0).fileWritten
      = some (.jsonText (renderJson 0 (snapshotJson snap0)))
  ∧ (FileContent.jsonText (renderJson 0 (snapshotJson snap0))).isJsonText
      = true := by
  refine ⟨by decide, by decide, ?_, rfl⟩
  rw [runMain_ok Format.yaml (some "report.json") true true env0 snap0 env0_ok]
  have hp : pathSuffix "report.json" = ".json" := by decide
  simp [dispatchOutput, hp]

/-- C1 amended: an explicit `--format json` always wins (JSON written
regardless of extension); a `.json` extension forces JSON regardless of
the flag — so a conflicting explicit `--format yaml` is overridden by a
`.json` extension; only on non-`.json` extensions does `--format yaml`
select the YAML encoder. -/
theorem format_precedence_amended (env : Env) (s : Snapshot) (path : String)
    (yamlAvailable richAvailable : Bool)
    (h : get_system_info env = .ok s) :
    ((runMain Format.json (some path) yamlAvailable richAvailable env).fileWritten
       = some (.jsonText (renderJson 0 (snapshotJson s))))
  ∧ (pathSuffix path = ".json" → ∀ fmt,
      (runMain fmt (some path) yamlAvailable richAvailable env).fileWritten
        = some (.jsonText (renderJson 0 (snapshotJson s))))
  ∧ (pathSuffix path ≠ ".json" →
      (runMain Format.yaml (some path) true richAvailable env).fileWritten
        = some (.yamlOf (snapshotJson s))) := by
  refine ⟨?_, ?_, ?_⟩
  · rw [runMain_ok Format.json (some path) yamlAvailable richAvailable env s h]
    simp [dispatchOutput]
  · intro hp fmt
    rw [runMain_ok fmt (some path) yamlAvailable richAvailable env s h]
    simp [dispatchOutput, hp]
  · intro hp
    rw [runMain_ok Format.yaml (some path) true richAvailable env s h]
    simp [dispatchOutput, hp]

/-- C1 amended witness: `--format json` with a `.yaml` extension still
writes JSON (the flag wins in the JSON direction). -/
theorem format_precedence_amended_witness :
    (runMain Format.json (some "system.yaml") true true env0).fileWritten
      = some (.jsonText (renderJson 0 (snapshotJson snap0))) :=
  (format_precedence_amended env0 snap0 "system.yaml" true true env0_ok).1

/-- C8: the gibibyte capacities are computed by `round2gb` — the byte
count divided by `1024^3`, correctly rounded (half-even) to exactly two
decimal places — once, at snapshot construction; every renderer then
passes the stored value through verbatim (`decRepr`/JSON number of the
very same `Dec`), applying no further rounding. -/
theorem rounding_at_construction (env : Env) (s : Snapshot)
    (h : get_system_info env = .ok s) :
    s.memory.total_gb = round2gb env.mem_total
  ∧ s.memory.available_gb = round2gb env.mem_available
  ∧ s.memory.used_gb = round2gb env.mem_used
  ∧ s.disk = env.disk_partitions.filterMap
      (fun p => (env.disk_usage p.mountpoint).toOption.map (mkDiskRec p))
  ∧ (∀ p u, mkDiskRec p u =
      { device := p.device, mountpoint := p.mountpoint, fstype := p.fstype
      , total_gb := round2gb u.total, used_gb := round2gb u.used
      , free_gb := round2gb u.free, percent_used := u.percent })
  ∧ (∀ b : Nat, |(round2gb b).val - (b : ℚ) / 1024 ^ 3| ≤ 1 / 200)
  ∧ (∀ b : Nat, ((round2gb b).val * 100).den = 1)
  ∧ (∀ m : MemBlock, memJson m =
      .obj [ ("total_gb", .dec m.total_gb), ("available_gb", .dec m.available_gb)
           , ("used_gb", .dec m.used_gb), ("percent_used", .dec m.percent_used) ])
  ∧ (∀ m : MemBlock, memItems m =
      [ ("total_gb", decRepr m.total_gb), ("available_gb", decRepr m.available_gb)
      , ("used_gb", decRepr m.used_gb), ("percent_used", decRepr m.percent_used) ])
  ∧ (∀ d : DiskRec, diskRowCells d =
      [ d.device, d.mountpoint, decRepr d.total_gb, decRepr d.used_gb
      , decRepr d.free_gb, decRepr d.percent_used ++ "%" ]) := by
  obtain ⟨hd, hs⟩ := get_system_info_fields env s h
  exact ⟨by rw [hs], by rw [hs], by rw [hs],
    collectDisks_ok env.disk_usage env.disk_partitions s.disk hd,
    fun p u => rfl, round2gb_close, round2gb_grid,
    fun m => rfl, fun m => rfl, fun d => rfl⟩

/-- C8 witness: 16 GiB of memory bytes in the fixture is stored as the
two-decimal value 16.00 and rendered as the same value. -/
theorem rounding_at_construction_witness :
    snap0.memory.total_gb = round2gb env0.mem_total ∧
      round2gb env0.mem_total = ⟨1600, 2⟩ ∧
      decRepr (round2gb env0.mem_total) = "16.0" :=
  ⟨(rounding_at_construction env0 snap0 env0_ok).1, by decide, by decide⟩

end SysInfo
